import Mathlib

/-!
# Verification of the tag-vm-config OpenFaaS handler

Shallow embedding of `examples/go/tag-vm-config/handler/handler.go` and
`examples/go/tag-vm-config/handler/client.go`.

The handler receives a vSphere `AlarmStatusChangedEvent`, decides whether it is
an actionable CPU/memory red alarm, computes the next capacity tier for the
resource, resolves that tier name to a tag within the matching tag category and
attaches the tag to the virtual machine.

Modelling conventions:
* Go `error` results become `Except String α`; the `String` is the Go error
  message (`fmt.Errorf` wrapping becomes string concatenation).
* External collaborators (JSON decoding, the TOML secret file, the govmomi /
  REST APIs) are supplied through an environment record; the handler's own
  logic is translated literally.
* A Go runtime panic (nil-pointer dereference, negative shift amount) is
  modelled as `none` in an `Option` result.
* `float64` arithmetic inside `incMemVal` is modelled exactly: a `float64`
  value is represented by a fraction `Frac` denoting its exact rational value,
  and each Go floating-point operation is the exact fraction operation
  followed by `roundDouble`, IEEE-754 binary64 round-to-nearest-even (all
  values appearing in the proofs are in the normal range, so overflow,
  subnormals, and division by zero are irrelevant and not modelled).
-/

set_option maxRecDepth 100000

namespace TagVmConfig

/-! ## IEEE-754 binary64 model -/

/-- Exact value of a `float64`: the fraction `num / den` (with `den > 0` for
every value this file constructs). -/
structure Frac where
  num : ℤ
  den : ℤ
deriving DecidableEq, Repr

/-- Number of binary digits of `n` (`⌊log₂ n⌋ + 1` for `n > 0`), written with
explicit fuel so that it evaluates inside the kernel.  The fuel `n` itself is
always sufficient because a positive number has at most `n` binary digits. -/
def natBitsAux : Nat → Nat → Nat
  | 0, _ => 0
  | fuel + 1, n => if n = 0 then 0 else natBitsAux fuel (n / 2) + 1

/-- Number of binary digits of `n`. -/
def natBits (n : Nat) : Nat := natBitsAux n n

/-- Is `2 ^ e ≤ a / b`?  (`a`, `b` positive.) -/
def pow2LE (e : ℤ) (a b : ℤ) : Bool :=
  if 0 ≤ e then decide (b * Int.ofNat (1 <<< e.toNat) ≤ a)
  else decide (b ≤ a * Int.ofNat (1 <<< (-e).toNat))

/-- `⌊log₂ (a / b)⌋` for positive integers `a`, `b`. -/
def ratLog2Floor (a b : ℤ) : ℤ :=
  let e0 : ℤ := (natBits a.toNat : ℤ) - (natBits b.toNat : ℤ)
  if pow2LE e0 a b then e0 else e0 - 1

/-- Round `N / D` (`D > 0`) to the nearest integer, ties to even. -/
def roundHalfEvenDiv (N D : ℤ) : ℤ :=
  let m := N.fdiv D
  let r := N - m * D
  if 2 * r < D then m
  else if D < 2 * r then m + 1
  else if m.emod 2 = 0 then m else m + 1

/-- Round a fraction to the nearest IEEE-754 binary64 value (53-bit mantissa,
round-to-nearest-even), assuming the result lies in the normal range. -/
def roundDouble (f : Frac) : Frac :=
  if f.num = 0 then ⟨0, 1⟩
  else
    let s : ℤ := if f.num < 0 then -1 else 1
    let a : ℤ := s * f.num
    let b : ℤ := f.den
    let e : ℤ := ratLog2Floor a b
    let shift : ℤ := 52 - e
    let n : ℤ :=
      if 0 ≤ shift then roundHalfEvenDiv (a * Int.ofNat (1 <<< shift.toNat)) b
      else roundHalfEvenDiv a (b * Int.ofNat (1 <<< (-shift).toNat))
    if 0 ≤ e - 52 then ⟨s * n * Int.ofNat (1 <<< (e - 52).toNat), 1⟩
    else ⟨s * n, Int.ofNat (1 <<< (52 - e).toNat)⟩

/-- `float64` division: round the exact quotient. -/
def flDiv (a b : Frac) : Frac :=
  if 0 ≤ b.num then roundDouble ⟨a.num * b.den, a.den * b.num⟩
  else roundDouble ⟨-(a.num * b.den), a.den * (-b.num)⟩

/-- `float64` multiplication: round the exact product. -/
def flMul (a b : Frac) : Frac :=
  roundDouble ⟨a.num * b.num, a.den * b.den⟩

/-- Go's conversion `int(x)` for `x : float64`: truncation toward zero. -/
def goTrunc (f : Frac) : ℤ := f.num.tdiv f.den

/-- The `float64` nearest to `log₁₀ 2`: the value of the Go untyped constant
expression `math.Ln2 / math.Ln10` after conversion to `float64`
(`0x1.34413509f79ffp-2 = 5422874305198591 / 2^54`). -/
def log10of2 : Frac := ⟨5422874305198591, 18014398509481984⟩

/-- Exponent of an exact power of two: for a canonical fraction (`den = 1`, or
`num = 1` with `den` a power of two), `pow2Exp f = some j` iff `f` denotes
`2 ^ j`. -/
def pow2Exp (f : Frac) : Option ℤ :=
  if f.den = 1 ∧ 0 < f.num then
    let n := f.num.toNat
    let j := natBits n - 1
    if n = 1 <<< j then some (j : ℤ) else none
  else if f.num = 1 ∧ 0 < f.den then
    let d := f.den.toNat
    let j := natBits d - 1
    if d = 1 <<< j then some (-(j : ℤ)) else none
  else none

/-- Go's `math.Log10`, modelled on exact powers of two (the only inputs the
theorems evaluate it on).  Per the Go standard library, `Log10(x) = Log2(x) *
(Ln2 / Ln10)` and `Log2` returns the exact exponent for exact powers of two
(its `frac == 0.5` special case), so `Log10 (2^j)` is the correctly rounded
product `fl(float64(j) * fl(Ln2/Ln10))`.  Inputs that are not powers of two
are mapped to `0`; no theorem in this file evaluates the function there. -/
def goLog10onPow2 (f : Frac) : Frac :=
  match pow2Exp f with
  | some j => flMul ⟨j, 1⟩ log10of2
  | none => ⟨0, 1⟩

/-! ## Tier policy engine (`incCpuVal`, `incMemVal`) -/

/-- Two's-complement wrap-around of a 64-bit Go `int`: the representative of
`z` modulo `2^64` lying in `[-2^63, 2^63)`. -/
def wrap64 (z : ℤ) : ℤ := (z + 2 ^ 63) % 2 ^ 64 - 2 ^ 63

/-- `incCpuVal` from handler.go: next CPU tier, capped at 4, rendered in
decimal via `strconv.Itoa`.  The parameter is a Go `int` (64-bit two's
complement), so the increment `numCPU++` wraps on overflow (`wrap64`); the
parameter itself is meaningful on `[-2^63, 2^63)`, the values a Go `int` can
hold. -/
def incCpuVal (numCPU : ℤ) : String :=
  let newNum : ℤ := 4
  let numCPU1 := wrap64 (numCPU + 1)
  let newNum1 := if numCPU1 < newNum then numCPU1 else newNum
  toString newNum1

/-- The Go `float64` literal `2` passed to `math.Log10(2)`. -/
def two : Frac := ⟨2, 1⟩

/-- `incMemVal` from handler.go: next memory tier.  The parameter `log10`
models `math.Log10`; the Go body is
`newMem := 1 << 23; exp := int(math.Log10(mem) / math.Log10(2)); exp++;
if exp < 23 { newMem = 1 << exp }; return strconv.Itoa(newMem)`.
A negative shift amount panics in Go, modelled as `none`. -/
def incMemVal (log10 : Frac → Frac) (mem : Frac) : Option String :=
  let maxExp : ℤ := 23
  let exp : ℤ := goTrunc (flDiv (log10 mem) (log10 two)) + 1
  if exp < maxExp then
    if 0 ≤ exp then some (toString (1 <<< exp.toNat : Nat)) else none
  else some (toString (1 <<< 23 : Nat))

/-! ## Event data model

`cloudEvent` wraps `types.AlarmStatusChangedEvent`; of the govmomi event type
only the fields the handler reads are modelled: `Vm` (a nullable
`*VmEventArgument` holding a managed object reference), `Alarm.Name` and `To`.
-/

/-- `types.ManagedObjectReference`: a `Type`/`Value` pair. -/
structure MoRef where
  type : String
  value : String
deriving DecidableEq, Repr

/-- The `Alarm` argument of the event; only `Name` is read. -/
structure AlarmArg where
  name : String
deriving DecidableEq, Repr

/-- The fields of `types.AlarmStatusChangedEvent` the handler reads.  `vm`
models the nullable `Vm *VmEventArgument` (whose payload is its inner `Vm`
managed object reference); `toLevel` models the field `To`. -/
structure AlarmData where
  vm : Option MoRef
  alarm : AlarmArg
  toLevel : String
deriving DecidableEq, Repr

/-- `cloudEvent` from handler.go: `struct { Data types.AlarmStatusChangedEvent }`. -/
structure cloudEvent where
  data : AlarmData
deriving DecidableEq, Repr

/-- `govmomi/vapi/tags.Tag`; the handler reads `Name`, `ID` and `CategoryID`. -/
structure Tag where
  name : String
  id : String
  categoryID : String
deriving DecidableEq, Repr

/-- `VirtualHardware`: the two fields read from `Config.Hardware`
(`NumCPU int32`, `MemoryMB int32`). -/
structure VirtualHardware where
  numCPU : ℤ
  memoryMB : ℤ
deriving DecidableEq, Repr

/-- `types.VirtualMachineConfigInfo`; only `Hardware` is read. -/
structure VirtualMachineConfigInfo where
  hardware : VirtualHardware
deriving DecidableEq, Repr

/-- `mo.VirtualMachine`; `config` models the nullable pointer field
`Config *types.VirtualMachineConfigInfo` (`none` = nil). -/
structure MoVirtualMachine where
  config : Option VirtualMachineConfigInfo
deriving DecidableEq, Repr

/-! ## Validation and classification -/

/-- The first condition of `isValidEvent`:
`event.Data.Vm == nil || event.Data.Vm.Vm.Value == ""`. -/
def vmRefEmpty (event : cloudEvent) : Bool :=
  match event.data.vm with
  | none => true
  | some r => r.value == ""

/-- `isValidEvent` from handler.go; `some msg` is the returned error, `none`
means the event is valid. -/
def isValidEvent (event : cloudEvent) : Option String :=
  if vmRefEmpty event then some "empty VM managed object reference"
  else if event.data.alarm.name == "" || event.data.toLevel == "" then
    some "insufficent alarm infomration"
  else none

/-- `parseCloudEvent` from handler.go.  Its input is the result of
`json.Unmarshal` on the request body (`Except.error msg` = deserialization
failure with message `msg`), which the function wraps; a successfully decoded
event is then checked by `isValidEvent`.  The function is pure (no side
effects). -/
def parseCloudEvent (decoded : Except String cloudEvent) : Except String cloudEvent :=
  match decoded with
  | Except.error msg => Except.error ("unmarshalling json: " ++ msg)
  | Except.ok event =>
    match isValidEvent event with
    | some msg => Except.error msg
    | none => Except.ok event

/-- `isStorageInAlarm` from handler.go: actionability test. -/
def isStorageInAlarm (event : cloudEvent) : Bool :=
  let alarm := false
  if event.data.toLevel == "red" &&
      (event.data.alarm.name == "VM Memory Usage" || event.data.alarm.name == "VM CPU Usage") then
    true
  else alarm

/-- `catName` from handler.go: category name from alarm name (`""` for
unrecognized alarm names). -/
def catName (alarmName : String) : String :=
  if alarmName == "VM CPU Usage" then "config.hardware.numCPU"
  else if alarmName == "VM Memory Usage" then "config.hardware.memoryMB"
  else ""

/-! ## Tag resolution -/

/-- `findCatAndTagID` from handler.go: linear scan for the first tag whose
name equals `tn`; `("", "")` when there is no match. -/
def findCatAndTagID (ts : List Tag) (tn : String) : String × String :=
  match ts with
  | [] => ("", "")
  | t :: rest => if t.name == tn then (t.categoryID, t.id) else findCatAndTagID rest tn

/-- `selectTag` from handler.go.  `log10` models `math.Log10` and
`getTagsForCategory` the call `client.tagMgr.GetTagsForCategory`.  The outer
`Option` models a Go runtime panic: in the two recognized categories the
source reads `moVM.Config.Hardware` without a nil check, so a record without
configuration (`config = none`) dereferences a nil pointer. -/
def selectTag (ce : cloudEvent) (moVM : MoVirtualMachine) (log10 : Frac → Frac)
    (getTagsForCategory : String → Except String (List Tag)) :
    Option (Except String (String × String)) :=
  let cat := catName ce.data.alarm.name
  let tagName? : Option String :=
    if cat == "config.hardware.numCPU" then
      match moVM.config with
      | none => none
      | some cfg => some (incCpuVal cfg.hardware.numCPU)
    else if cat == "config.hardware.memoryMB" then
      match moVM.config with
      | none => none
      | some cfg => incMemVal log10 ⟨cfg.hardware.memoryMB, 1⟩
    else some ""
  match tagName? with
  | none => none
  | some tagName =>
    match getTagsForCategory cat with
    | Except.error e => some (Except.error e)
    | Except.ok tagList => some (Except.ok (findCatAndTagID tagList tagName))

/-! ## Connection manager -/

/-- `vsClient` from client.go.  The govmomi client, REST client and tags
manager are external library objects, modelled as numeric handles. -/
structure VsClient where
  govmomi : ℕ
  rest : ℕ
  tagMgr : ℕ
deriving DecidableEq, Repr

/-- `rest.NewClient(gc.Client)`: deterministic construction of the REST
client from the govmomi client (modelled as handle passing). -/
def restNewClient (gc : ℕ) : ℕ := gc

/-- `tags.NewManager(rc)`: deterministic construction of the tags manager. -/
def tagsNewManager (rc : ℕ) : ℕ := rc

/-- Outcomes of the two authentication steps performed by `newClient`:
`govmomi.NewClient` (SOAP session login) and `rest.Login`. -/
structure ConnEnv where
  govmomiNew : Except String ℕ
  restLogin : Except String Unit
deriving Repr

/-- `newClient` from client.go: SOAP login, REST client construction, REST
login, tags manager construction.  An error at either authentication step is
wrapped and returned; the client record is only produced when both steps
succeed. -/
def newClient (cenv : ConnEnv) : Except String VsClient :=
  match cenv.govmomiNew with
  | Except.error e => Except.error ("connecting to govmomi api failed: " ++ e)
  | Except.ok gc =>
    let rc := restNewClient gc
    match cenv.restLogin with
    | Except.error e => Except.error ("log in to rest api failed: " ++ e)
    | Except.ok _ =>
      Except.ok { govmomi := gc, rest := rc, tagMgr := tagsNewManager rc }

/-- `vsConnect` from handler.go, as a transformer of the global `client`
variable (the mutex only serializes access and is not itself modelled).
Returns (result, new global client, log lines); the `"connecting to vSphere"`
log line is emitted only in debug mode, before authentication. -/
def vsConnect (dbg : Bool) (cenv : ConnEnv) (client : Option VsClient) :
    Except String Unit × Option VsClient × List String :=
  match client with
  | some c => (Except.ok (), some c, [])
  | none =>
    let lg := if dbg then ["connecting to vSphere"] else []
    match newClient cenv with
    | Except.error e => (Except.error ("connecting to vSphere API: " ++ e), none, lg)
    | Except.ok c => (Except.ok (), some c, lg)

/-! ## Orchestrator -/

/-- `handler.Response`: body bytes and HTTP status code. -/
structure Response where
  body : String
  statusCode : ℕ
deriving DecidableEq, Repr

/-- The response value built by `errRespondAndLog`: the error text as body
with status 500.  (Its debug-gated log line is modelled by `debugLogs`.) -/
def errRespondAndLog (msg : String) : Response :=
  { body := msg, statusCode := 500 }

/-- The log emitted by a `if debug() { log.Println(msg) }` block. -/
def debugLogs (dbg : Bool) (msg : String) : List String :=
  if dbg then [msg] else []

/-- `eventVmMoRef` from handler.go: builds the managed object reference from
the event and returns a nil error.  Reading `event.Data.Vm.Vm` dereferences
the nullable `Vm` argument, so a nil `Vm` is a panic (`none`); the function
has no error return path. -/
def eventVmMoRef (event : cloudEvent) : Option (Except String MoRef) :=
  match event.data.vm with
  | none => none
  | some r => some (Except.ok ⟨r.type, r.value⟩)

/-- `moVirtualMachine` from handler.go, with `retrieve` the outcome of the
property-collector call.  A retrieval error is only logged; the zero
`mo.VirtualMachine` (no config) is then returned.  The `log.Printf`
diagnostic dumps are recorded as fixed tags (their formatted content is not
modelled). -/
def moVirtualMachine (retrieve : Except String MoVirtualMachine) :
    MoVirtualMachine × List String :=
  match retrieve with
  | Except.error _ => ({ config := none }, ["vmMOR", "retrieve ERROR", "moVM"])
  | Except.ok vm => (vm, ["vmMOR", "moVM"])

/-- The external collaborators of one `Handle` invocation:
* `decoded` — result of `json.Unmarshal` on the request body;
* `cfgLoad` — outcome of `loadTomlCfg` (TOML secret loading + validation);
* `conn` — outcomes of the two authentication steps inside `newClient`;
* `log10` — `math.Log10`;
* `retrieve` — outcome of the property-collector retrieval of the VM;
* `getTagsForCategory` — `client.tagMgr.GetTagsForCategory`;
* `attachTag` — `client.tagMgr.AttachTag`;
* `debugFlag` — whether the `write_debug` environment variable is `"true"`. -/
structure Env where
  decoded : Except String cloudEvent
  cfgLoad : Except String Unit
  conn : ConnEnv
  log10 : Frac → Frac
  retrieve : Except String MoVirtualMachine
  getTagsForCategory : String → Except String (List Tag)
  attachTag : String → MoRef → Except String Unit
  debugFlag : Bool

/-- What one `Handle` invocation produces: the response, the error returned
alongside it (Go's second return value), the global client after the call and
an effect trace (whether config loading and `vsConnect` were reached, the
`AttachTag` calls made, and the log lines written). -/
structure Trace where
  cfgLoadCalled : Bool
  connectCalled : Bool
  attachCalls : List (String × MoRef)
  logs : List String
deriving DecidableEq, Repr

/-- Result record of `Handle`. -/
structure HandleOutcome where
  resp : Response
  err : Option String
  client : Option VsClient
  trace : Trace
deriving DecidableEq, Repr

/-- The fixed message of the non-actionable branch. -/
def nothingToDoMsg : String := "Alert not for CPU/Memory in red, nothing to do."

/-- `Handle` from handler.go, over the collaborator outcomes in `env` and the
global `client` at entry.  `none` models a runtime panic.  The
`once.Do(handleSignal)` registration only spawns the signal listener and is
not part of the request/response behaviour. -/
def Handle (env : Env) (client0 : Option VsClient) : Option HandleOutcome :=
  match parseCloudEvent env.decoded with
  | Except.error e =>
    some { resp := errRespondAndLog ("parsing cloud event data: " ++ e)
           err := some e
           client := client0
           trace := { cfgLoadCalled := false, connectCalled := false, attachCalls := []
                      logs := debugLogs env.debugFlag ("parsing cloud event data: " ++ e) } }
  | Except.ok cloudEvt =>
    if !isStorageInAlarm cloudEvt then
      some { resp := { body := nothingToDoMsg, statusCode := 200 }
             err := none
             client := client0
             trace := { cfgLoadCalled := false, connectCalled := false, attachCalls := []
                        logs := [nothingToDoMsg] } }
    else
      match env.cfgLoad with
      | Except.error e =>
        some { resp := errRespondAndLog ("loading of vcconfig: " ++ e)
               err := some e
               client := client0
               trace := { cfgLoadCalled := true, connectCalled := false, attachCalls := []
                          logs := debugLogs env.debugFlag ("loading of vcconfig: " ++ e) } }
      | Except.ok _ =>
        match vsConnect env.debugFlag env.conn client0 with
        | (Except.error e, client1, clog) =>
          some { resp := errRespondAndLog ("connecting to vSphere: " ++ e)
                 err := some e
                 client := client1
                 trace := { cfgLoadCalled := true, connectCalled := true, attachCalls := []
                            logs := clog ++ debugLogs env.debugFlag ("connecting to vSphere: " ++ e) } }
        | (Except.ok _, client1, clog) =>
          match eventVmMoRef cloudEvt with
          | none => none
          | some (Except.error e) =>
            some { resp := errRespondAndLog ("retrieving VM managed reference object: " ++ e)
                   err := some e
                   client := client1
                   trace := { cfgLoadCalled := true, connectCalled := true, attachCalls := []
                              logs := clog ++ debugLogs env.debugFlag
                                  ("retrieving VM managed reference object: " ++ e) } }
          | some (Except.ok vmMOR) =>
            match moVirtualMachine env.retrieve with
            | (moVM, mlog) =>
              match selectTag cloudEvt moVM env.log10 env.getTagsForCategory with
              | none => none
              | some (Except.error e) =>
                some { resp := errRespondAndLog ("retrieving VM managed reference object: " ++ e)
                       err := some e
                       client := client1
                       trace := { cfgLoadCalled := true, connectCalled := true, attachCalls := []
                                  logs := clog ++ mlog ++ debugLogs env.debugFlag
                                      ("retrieving VM managed reference object: " ++ e) } }
              | some (Except.ok (catID, tagID)) =>
                match env.attachTag tagID vmMOR with
                | Except.error e =>
                  some { resp := errRespondAndLog ("tagging managed reference object: " ++ e)
                         err := some e
                         client := client1
                         trace := { cfgLoadCalled := true, connectCalled := true
                                    attachCalls := [(tagID, vmMOR)]
                                    logs := clog ++ mlog ++
                                      debugLogs env.debugFlag ("tagging managed reference object: " ++ e) ++
                                      debugLogs env.debugFlag ("tagging managed reference object: " ++ e) } }
                | Except.ok _ =>
                  some { resp := { body := vmMOR.value ++ " was tagged with " ++ tagID ++ ", " ++ catID
                                   statusCode := 200 }
                         err := none
                         client := client1
                         trace := { cfgLoadCalled := true, connectCalled := true
                                    attachCalls := [(tagID, vmMOR)]
                                    logs := clog ++ mlog ++
                                      [vmMOR.value ++ " was tagged with " ++ tagID ++ ", " ++ catID] } }

/-- Projection of a `Handle` result that drops the log lines (everything the
caller and the rest of the system can observe apart from server-side logs). -/
def outView (r : Option HandleOutcome) :
    Option (Response × Option String × Option VsClient × Bool × Bool × List (String × MoRef)) :=
  r.map fun out =>
    (out.resp, out.err, out.client, out.trace.cfgLoadCalled, out.trace.connectCalled,
      out.trace.attachCalls)

end TagVmConfig

namespace TagVmConfig

/-! ## Theorems -/

/-- Claim C1: for every memory size that is an exact power of two `2^k` MB
with `0 ≤ k < 23`, `incMemVal` returns the decimal string of `2^(k+1)`, and
for `2^23` MB it returns the decimal string of `2^23` (capped): the function
computes the floor base-2 logarithm of the current size, increments it, caps
the incremented exponent at 23, and renders `2^cappedExponent` in decimal.
`math.Log10` is modelled exactly at these inputs by `goLog10onPow2`. -/
theorem incMemVal_pow2_tiers :
    (∀ k : ℕ, k < 23 →
      incMemVal goLog10onPow2 ⟨Int.ofNat (2 ^ k), 1⟩ = some (toString (2 ^ (k + 1) : ℕ))) ∧
    incMemVal goLog10onPow2 ⟨Int.ofNat (2 ^ 23), 1⟩ = some (toString (2 ^ 23 : ℕ)) := by
  decide

/-- Witness for `incMemVal_pow2_tiers`: the 4096 MB tier advances to 8192. -/
theorem incMemVal_pow2_tiers_witness :
    incMemVal goLog10onPow2 ⟨Int.ofNat (2 ^ 12), 1⟩ = some (toString (2 ^ 13 : ℕ)) :=
  incMemVal_pow2_tiers.1 12 (by decide)

/-- Claim C4 fails on the code at the maximum `int`: Go's `numCPU++` wraps at
`2^63 - 1`, so `incCpuVal` returns the decimal string of the wrapped negative
value `-2^63`, not the decimal string of `min (n+1) 4 = 4`. -/
theorem incCpuVal_overflow_counterexample :
    incCpuVal (2 ^ 63 - 1) = "-9223372036854775808" ∧
    incCpuVal (2 ^ 63 - 1) ≠ toString (min (2 ^ 63 - 1 + 1) 4 : ℤ) := by
  exact ⟨by decide, by decide⟩

/-- Claim C4 amended: for every CPU count `n ≥ 0` whose increment does not
overflow a 64-bit `int` (`n < 2^63 - 1`), `incCpuVal` returns the decimal
string of `min (n+1) 4`; in particular `incCpuVal 3 = "4"` and
`incCpuVal 10 = "4"`.  (At `n = 2^63 - 1` the increment wraps and the
function returns `"-9223372036854775808"`.) -/
theorem incCpuVal_min_four :
    (∀ n : ℤ, 0 ≤ n → n < 2 ^ 63 - 1 → incCpuVal n = toString (min (n + 1) 4)) ∧
    incCpuVal 3 = "4" ∧ incCpuVal 10 = "4" := by
  refine ⟨fun n hn hub => ?_, by decide, by decide⟩
  have hw : wrap64 (n + 1) = n + 1 := by
    unfold wrap64
    norm_num at hub ⊢
    omega
  have h : (if n + 1 < (4 : ℤ) then n + 1 else 4) = min (n + 1) 4 := by
    rw [min_def]; split_ifs <;> omega
  simp only [incCpuVal, hw, h]

/-- Witness for `incCpuVal_min_four`: a CPU count of 5 is capped at tier 4. -/
theorem incCpuVal_min_four_witness : incCpuVal 5 = toString (min (5 + 1) 4 : ℤ) :=
  incCpuVal_min_four.1 5 (by decide) (by decide)

/-- Claim C5: `isStorageInAlarm` is true exactly when the new alarm level is
`"red"` and the alarm name is `"VM CPU Usage"` or `"VM Memory Usage"`; it is
false for every other combination. -/
theorem isStorageInAlarm_iff (e : cloudEvent) :
    isStorageInAlarm e = true ↔
      e.data.toLevel = "red" ∧
        (e.data.alarm.name = "VM CPU Usage" ∨ e.data.alarm.name = "VM Memory Usage") := by
  simp only [isStorageInAlarm, Bool.if_true_left, Bool.or_eq_true, Bool.and_eq_true,
    beq_iff_eq, decide_eq_true_eq]
  tauto

/-- Claim C7: a failure at either authentication step makes `vsConnect`
return an error and leaves the global client nil (no partial session
installed); if a client already exists, `vsConnect` succeeds without
consulting the authentication collaborators at all and leaves it unchanged. -/
theorem vsConnect_all_or_nothing :
    (∀ dbg cenv,
        ((∃ e, cenv.govmomiNew = Except.error e) ∨ (∃ e, cenv.restLogin = Except.error e)) →
        (∃ e, (vsConnect dbg cenv none).1 = Except.error e) ∧
          (vsConnect dbg cenv none).2.1 = none) ∧
    (∀ dbg cenv c, vsConnect dbg cenv (some c) = (Except.ok (), some c, [])) := by
  constructor
  · intro dbg cenv h
    unfold vsConnect newClient
    rcases hg : cenv.govmomiNew with e | gc
    · simp [hg]
    · rcases hr : cenv.restLogin with e | u
      · simp [hg, hr]
      · rcases h with ⟨e, he⟩ | ⟨e, he⟩ <;> simp_all
  · intro dbg cenv c; rfl

/-- Witness for `vsConnect_all_or_nothing`: a failed SOAP login yields an
error and no installed client. -/
theorem vsConnect_all_or_nothing_witness :
    (∃ e, (vsConnect false ⟨Except.error "auth refused", Except.ok ()⟩ none).1 =
        Except.error e) ∧
      (vsConnect false ⟨Except.error "auth refused", Except.ok ()⟩ none).2.1 = none :=
  vsConnect_all_or_nothing.1 false ⟨Except.error "auth refused", Except.ok ()⟩
    (Or.inl ⟨"auth refused", rfl⟩)

/-- Claim C10: `eventVmMoRef` builds the managed object reference from the
event's `Vm` `Type`/`Value` fields and returns a nil error; it never returns
an error, so the error-handling branch that `Handle` keeps for it can never
fire. -/
theorem eventVmMoRef_never_errors :
    (∀ ev r, ev.data.vm = some r → eventVmMoRef ev = some (Except.ok ⟨r.type, r.value⟩)) ∧
    (∀ ev e, eventVmMoRef ev ≠ some (Except.error e)) := by
  constructor
  · intro ev r h; unfold eventVmMoRef; rw [h]
  · intro ev e h
    unfold eventVmMoRef at h
    rcases hv : ev.data.vm with _ | r <;> rw [hv] at h <;> simp at h

/-- Concrete event used by the witness of `eventVmMoRef_never_errors`. -/
def evRef : cloudEvent := ⟨⟨some ⟨"VirtualMachine", "vm-42"⟩, ⟨"VM CPU Usage"⟩, "red"⟩⟩

/-- Witness for `eventVmMoRef_never_errors`. -/
theorem eventVmMoRef_never_errors_witness :
    eventVmMoRef evRef = some (Except.ok ⟨"VirtualMachine", "vm-42"⟩) :=
  eventVmMoRef_never_errors.1 evRef ⟨"VirtualMachine", "vm-42"⟩ rfl

/-- Failing input for claim C2: an actionable CPU red alarm for `vm-42`
whose retrieved record carries no hardware configuration; every external
collaborator succeeds. -/
def envNoConfig : Env :=
  { decoded := Except.ok ⟨⟨some ⟨"VirtualMachine", "vm-42"⟩, ⟨"VM CPU Usage"⟩, "red"⟩⟩
    cfgLoad := Except.ok ()
    conn := ⟨Except.ok 0, Except.ok ()⟩
    log10 := fun _ => ⟨0, 1⟩
    retrieve := Except.ok { config := none }
    getTagsForCategory := fun _ => Except.ok []
    attachTag := fun _ _ => Except.ok ()
    debugFlag := false }

/-- Claim C2 is violated by the code: when the retrieved VM record carries no
hardware configuration, `selectTag` dereferences the nil `Config` pointer, so
the invocation crashes (`none`) instead of failing with a
`ConfigUnavailable`-style error response. -/
theorem handle_missing_config_crashes : Handle envNoConfig none = none := by
  decide

/-- Characterization of a passing validation: `isValidEvent` returns no error
iff the VM reference is present with a non-empty identifier and the alarm
name and new level are non-empty. -/
theorem isValidEvent_none_iff (ev : cloudEvent) :
    isValidEvent ev = none ↔
      (∃ r, ev.data.vm = some r ∧ r.value ≠ "") ∧
        ev.data.alarm.name ≠ "" ∧ ev.data.toLevel ≠ "" := by
  unfold isValidEvent vmRefEmpty
  rcases hv : ev.data.vm with _ | r
  · simp
  · by_cases h1 : r.value = ""
    · simp [h1]
    · by_cases h2 : ev.data.alarm.name = ""
      · simp [h1, h2]
      · by_cases h3 : ev.data.toLevel = ""
        · simp [h1, h2, h3]
        · simp [h1, h2, h3]

/-- Characterization of a failing validation, the complement of
`isValidEvent_none_iff`. -/
theorem isValidEvent_some_iff (ev : cloudEvent) :
    (∃ m, isValidEvent ev = some m) ↔
      ev.data.vm = none ∨ (∃ r, ev.data.vm = some r ∧ r.value = "") ∨
        ev.data.alarm.name = "" ∨ ev.data.toLevel = "" := by
  unfold isValidEvent vmRefEmpty
  rcases hv : ev.data.vm with _ | r
  · simp
  · by_cases h1 : r.value = ""
    · simp [h1]
    · by_cases h2 : ev.data.alarm.name = ""
      · simp [h1, h2]
      · by_cases h3 : ev.data.toLevel = ""
        · simp [h1, h2, h3]
        · simp [h1, h2, h3]

/-- Claim C6: `parseCloudEvent` succeeds, returning exactly the decoded
notification, iff the payload deserializes and the decoded notification has a
present VM reference with a non-empty identifier, a non-empty alarm name and
a non-empty new level; it fails with an error iff deserialization fails or
one of those fields is absent/empty.  The function is pure. -/
theorem parseCloudEvent_validation :
    (∀ d ev, parseCloudEvent d = Except.ok ev ↔
      d = Except.ok ev ∧ (∃ r, ev.data.vm = some r ∧ r.value ≠ "") ∧
        ev.data.alarm.name ≠ "" ∧ ev.data.toLevel ≠ "") ∧
    (∀ d, (∃ e, parseCloudEvent d = Except.error e) ↔
      (∃ m, d = Except.error m) ∨
        ∃ ev, d = Except.ok ev ∧
          (ev.data.vm = none ∨ (∃ r, ev.data.vm = some r ∧ r.value = "") ∨
            ev.data.alarm.name = "" ∨ ev.data.toLevel = "")) := by
  constructor
  · intro d ev
    constructor
    · intro h
      rcases d with m | ev0
      · simp [parseCloudEvent] at h
      · rcases hval : isValidEvent ev0 with _ | msg
        · simp only [parseCloudEvent, hval, Except.ok.injEq] at h
          subst h
          exact ⟨rfl, (isValidEvent_none_iff ev0).1 hval⟩
        · simp [parseCloudEvent, hval] at h
    · rintro ⟨rfl, hcond⟩
      have hval := (isValidEvent_none_iff ev).2 hcond
      simp [parseCloudEvent, hval]
  · intro d
    constructor
    · rintro ⟨e, he⟩
      rcases d with m | ev0
      · exact Or.inl ⟨m, rfl⟩
      · rcases hval : isValidEvent ev0 with _ | msg
        · simp [parseCloudEvent, hval] at he
        · refine Or.inr ⟨ev0, rfl, ?_⟩
          exact (isValidEvent_some_iff ev0).1 ⟨msg, hval⟩
    · rintro (⟨m, rfl⟩ | ⟨ev0, rfl, hbad⟩)
      · exact ⟨"unmarshalling json: " ++ m, rfl⟩
      · rcases (isValidEvent_some_iff ev0).2 hbad with ⟨msg, hval⟩
        exact ⟨msg, by simp [parseCloudEvent, hval]⟩

/-- Claim C8: a well-formed but non-actionable notification yields the
"nothing to do" success response immediately: the configuration is never
loaded, `vsConnect` is never entered, no tag is attached and the global
client is left exactly as it was. -/
theorem handle_not_actionable (env : Env) (c0 : Option VsClient) (ev : cloudEvent)
    (hp : parseCloudEvent env.decoded = Except.ok ev)
    (hact : isStorageInAlarm ev = false) :
    Handle env c0 = some
      { resp := { body := nothingToDoMsg, statusCode := 200 }
        err := none
        client := c0
        trace := { cfgLoadCalled := false, connectCalled := false, attachCalls := []
                   logs := [nothingToDoMsg] } } := by
  simp [Handle, hp, hact]

/-- Environment of the witness for `handle_not_actionable`: a green-level
alarm; every external collaborator is set to fail, so reaching any of them
could not produce this outcome. -/
def envGreen : Env :=
  { decoded := Except.ok ⟨⟨some ⟨"VirtualMachine", "vm-42"⟩, ⟨"VM CPU Usage"⟩, "green"⟩⟩
    cfgLoad := Except.error "must not be read"
    conn := ⟨Except.error "must not authenticate", Except.error "must not authenticate"⟩
    log10 := fun _ => ⟨0, 1⟩
    retrieve := Except.error "must not retrieve"
    getTagsForCategory := fun _ => Except.error "must not list"
    attachTag := fun _ _ => Except.error "must not attach"
    debugFlag := false }

/-- Witness for `handle_not_actionable`. -/
theorem handle_not_actionable_witness :
    Handle envGreen none = some
      { resp := { body := nothingToDoMsg, statusCode := 200 }
        err := none
        client := none
        trace := { cfgLoadCalled := false, connectCalled := false, attachCalls := []
                   logs := [nothingToDoMsg] } } :=
  handle_not_actionable envGreen none
    ⟨⟨some ⟨"VirtualMachine", "vm-42"⟩, ⟨"VM CPU Usage"⟩, "green"⟩⟩ (by rfl) (by rfl)

/-- The result and the installed client of `vsConnect` do not depend on the
debug flag (only its log lines do). -/
theorem vsConnect_dbg_view (d1 d2 : Bool) (cenv : ConnEnv) (cl : Option VsClient) :
    (vsConnect d1 cenv cl).1 = (vsConnect d2 cenv cl).1 ∧
    (vsConnect d1 cenv cl).2.1 = (vsConnect d2 cenv cl).2.1 := by
  unfold vsConnect
  rcases cl with _ | c
  · rcases hnc : newClient cenv with e | c <;> simp [hnc]
  · simp

/-- Claim C9: every response `Handle` returns carries status code 200 or 500
and nothing else; the response, the returned error, the installed client and
the attach calls are identical whether or not the `write_debug` toggle is set
(the flag gates only server-side log lines); and an error response always
carries the full error text as its body, regardless of verbosity. -/
theorem handle_codes_and_debug_noninterference :
    (∀ (env : Env) (c0 : Option VsClient) (out : HandleOutcome), Handle env c0 = some out →
      out.resp.statusCode = 200 ∨ out.resp.statusCode = 500) ∧
    (∀ (env : Env) (c0 : Option VsClient) (d1 d2 : Bool),
      outView (Handle { env with debugFlag := d1 } c0) =
        outView (Handle { env with debugFlag := d2 } c0)) ∧
    (∀ msg, (errRespondAndLog msg).body = msg ∧ (errRespondAndLog msg).statusCode = 500) := by
  refine ⟨?_, ?_, fun msg => ⟨rfl, rfl⟩⟩
  · intro env c0 out h
    unfold Handle at h
    repeat' split at h
    all_goals
      first
      | exact Option.noConfusion h
      | (injection h with h2; subst h2; simp [errRespondAndLog])
  · intro env c0 d1 d2
    rcases hp : parseCloudEvent env.decoded with e | ev
    · simp [Handle, hp, outView]
    · by_cases ha : isStorageInAlarm ev
      · rcases hc : env.cfgLoad with e | u
        · simp [Handle, hp, ha, hc, outView]
        · obtain ⟨hr, hcl⟩ := vsConnect_dbg_view d1 d2 env.conn c0
          rcases hv1 : vsConnect d1 env.conn c0 with ⟨r1, c1, lg1⟩
          rcases hv2 : vsConnect d2 env.conn c0 with ⟨r2, c2, lg2⟩
          rw [hv1, hv2] at hr hcl
          simp only at hr hcl
          subst hr hcl
          rcases r1 with e | u1
          · simp [Handle, hp, ha, hc, hv1, hv2, outView]
          · rcases he : eventVmMoRef ev with _ | er
            · simp [Handle, hp, ha, hc, hv1, hv2, he, outView]
            · rcases hm : moVirtualMachine env.retrieve with ⟨moVM, mlog⟩
              rcases er with e | mor
              · simp [Handle, hp, ha, hc, hv1, hv2, he, hm, outView]
              · rcases hs : selectTag ev moVM env.log10 env.getTagsForCategory with _ | es
                · simp [Handle, hp, ha, hc, hv1, hv2, he, hm, hs, outView]
                · rcases es with e | pr
                  · simp [Handle, hp, ha, hc, hv1, hv2, he, hm, hs, outView]
                  · rcases pr with ⟨catID, tagID⟩
                    rcases hatt : env.attachTag tagID mor with e | u2
                    · simp [Handle, hp, ha, hc, hv1, hv2, he, hm, hs, hatt, outView]
                    · simp [Handle, hp, ha, hc, hv1, hv2, he, hm, hs, hatt, outView]
      · simp [Handle, hp, ha, outView]

/-- Environment of the witness for `handle_codes_and_debug_noninterference`:
an undecodable payload. -/
def envParseErr : Env :=
  { decoded := Except.error "bad json"
    cfgLoad := Except.ok ()
    conn := ⟨Except.ok 0, Except.ok ()⟩
    log10 := fun _ => ⟨0, 1⟩
    retrieve := Except.ok ⟨none⟩
    getTagsForCategory := fun _ => Except.ok []
    attachTag := fun _ _ => Except.ok ()
    debugFlag := false }

/-- Outcome of `Handle envParseErr none`. -/
def outParseErr : HandleOutcome :=
  { resp := { body := "parsing cloud event data: unmarshalling json: bad json", statusCode := 500 }
    err := some "unmarshalling json: bad json"
    client := none
    trace := { cfgLoadCalled := false, connectCalled := false, attachCalls := [], logs := [] } }

/-- Witness for `handle_codes_and_debug_noninterference`. -/
theorem handle_codes_and_debug_noninterference_witness :
    outParseErr.resp.statusCode = 200 ∨ outParseErr.resp.statusCode = 500 :=
  handle_codes_and_debug_noninterference.1 envParseErr none outParseErr (by decide)

/-- Managed object reference of the VM used in the C3 scenario. -/
def morNM : MoRef := ⟨"VirtualMachine", "vm-42"⟩

/-- Event of the C3 scenario: an actionable CPU red alarm. -/
def evNM : cloudEvent := ⟨⟨some morNM, ⟨"VM CPU Usage"⟩, "red"⟩⟩

/-- Environment of the C3 scenario: the VM currently has 2 CPUs, the tag
category holds no tags at all (so no label matches tier `"3"`), and attaching
a tag fails (as attaching an empty tag identifier would against a real
endpoint). -/
def envNoMatch : Env :=
  { decoded := Except.ok evNM
    cfgLoad := Except.ok ()
    conn := ⟨Except.ok 0, Except.ok ()⟩
    log10 := fun _ => ⟨0, 1⟩
    retrieve := Except.ok ⟨some ⟨⟨2, 1024⟩⟩⟩
    getTagsForCategory := fun _ => Except.ok []
    attachTag := fun _ _ => Except.error "404 Not Found"
    debugFlag := false }

/-- Outcome of `Handle envNoMatch none`. -/
def outNoMatch : HandleOutcome :=
  { resp := { body := "tagging managed reference object: 404 Not Found", statusCode := 500 }
    err := some "404 Not Found"
    client := some ⟨0, 0, 0⟩
    trace := { cfgLoadCalled := true, connectCalled := true
               attachCalls := [("", morNM)]
               logs := ["vmMOR", "moVM"] } }

/-- Claim C3 fails on the code: in an invocation whose tag lookup finds no
matching label, `Handle` does not produce a success response describing the
gap — it calls `AttachTag` with the empty tag identifier, and here the
attach failure turns the invocation into a 500 error response. -/
theorem handle_no_match_attaches_empty_tag :
    Handle envNoMatch none = some outNoMatch ∧
    outNoMatch.trace.attachCalls = [("", morNM)] ∧
    outNoMatch.resp.statusCode = 500 := by
  exact ⟨by decide, by decide, by decide⟩

/-- Claim C3 amended: when the lookup finds no label named after the
computed tier, `findCatAndTagID` returns empty category and tag identifiers
without an error; the orchestrator, however, does not short-circuit on the
empty identifier: it proceeds to call `AttachTag` with the empty tag
identifier, and the invocation yields a success response only when that
attach call succeeds (there is no gap-describing success response). -/
theorem findCatAndTagID_no_match_handle_attaches :
    (∀ (ts : List Tag) (tn : String), (∀ t ∈ ts, t.name ≠ tn) →
      findCatAndTagID ts tn = ("", "")) ∧
    (∀ (ev : cloudEvent) (mor : MoRef) (cenv : ConnEnv) (l10 : Frac → Frac)
        (retr : Except String MoVirtualMachine)
        (gt : String → Except String (List Tag))
        (att : String → MoRef → Except String Unit) (d : Bool)
        (c0 c1 : Option VsClient) (clog : List String),
      isValidEvent ev = none →
      isStorageInAlarm ev = true →
      ev.data.vm = some mor →
      vsConnect d cenv c0 = (Except.ok (), c1, clog) →
      selectTag ev (moVirtualMachine retr).1 l10 gt = some (Except.ok ("", "")) →
      ∃ out, Handle ⟨Except.ok ev, Except.ok (), cenv, l10, retr, gt, att, d⟩ c0 = some out ∧
        out.trace.attachCalls = [("", mor)] ∧
        (out.resp.statusCode = 200 ↔ att "" mor = Except.ok ())) := by
  constructor
  · intro ts tn h
    induction ts with
    | nil => rfl
    | cons t rest ih =>
      have hne : (t.name == tn) = false := by
        simp only [beq_eq_false_iff_ne]
        exact h t (List.mem_cons_self t rest)
      unfold findCatAndTagID
      rw [hne]
      simp only [Bool.false_eq_true, if_false]
      exact ih fun t' ht' => h t' (List.mem_cons_of_mem t ht')
  · intro ev mor cenv l10 retr gt att d c0 c1 clog hvalid hact hvm hconn hsel
    have hp : parseCloudEvent (Except.ok ev) = Except.ok ev := by
      simp [parseCloudEvent, hvalid]
    rcases hm : moVirtualMachine retr with ⟨moVM, mlog⟩
    rw [hm] at hsel
    simp only at hsel
    rcases hatt : att "" mor with e | u
    · have hh : Handle ⟨Except.ok ev, Except.ok (), cenv, l10, retr, gt, att, d⟩ c0 = some
          { resp := errRespondAndLog ("tagging managed reference object: " ++ e)
            err := some e
            client := c1
            trace := { cfgLoadCalled := true, connectCalled := true
                       attachCalls := [("", mor)]
                       logs := clog ++ mlog ++
                         debugLogs d ("tagging managed reference object: " ++ e) ++
                         debugLogs d ("tagging managed reference object: " ++ e) } } := by
        simp [Handle, hp, hact, hconn, eventVmMoRef, hvm, hm, hsel, hatt]
      exact ⟨_, hh, rfl, by simp [errRespondAndLog]⟩
    · have hh : Handle ⟨Except.ok ev, Except.ok (), cenv, l10, retr, gt, att, d⟩ c0 = some
          { resp := { body := mor.value ++ " was tagged with " ++ "" ++ ", " ++ ""
                      statusCode := 200 }
            err := none
            client := c1
            trace := { cfgLoadCalled := true, connectCalled := true
                       attachCalls := [("", mor)]
                       logs := clog ++ mlog ++
                         [mor.value ++ " was tagged with " ++ "" ++ ", " ++ ""] } } := by
        simp [Handle, hp, hact, hconn, eventVmMoRef, hvm, hm, hsel, hatt]
      exact ⟨_, hh, rfl, by simp⟩

/-- Witness for `findCatAndTagID_no_match_handle_attaches`: both parts
instantiated on the C3 scenario. -/
theorem findCatAndTagID_no_match_handle_attaches_witness :
    findCatAndTagID [⟨"2", "tag-2", "cat-cpu"⟩] "3" = ("", "") ∧
    ∃ out,
      Handle ⟨Except.ok evNM, Except.ok (), ⟨Except.ok 0, Except.ok ()⟩, fun _ => ⟨0, 1⟩,
          Except.ok ⟨some ⟨⟨2, 1024⟩⟩⟩, fun _ => Except.ok [],
          fun _ _ => Except.error "404 Not Found", false⟩ none = some out ∧
        out.trace.attachCalls = [("", morNM)] ∧
        (out.resp.statusCode = 200 ↔
          (fun _ _ => (Except.error "404 Not Found" : Except String Unit)) "" morNM =
            Except.ok ()) :=
  ⟨findCatAndTagID_no_match_handle_attaches.1 [⟨"2", "tag-2", "cat-cpu"⟩] "3"
      (by intro t ht; simp at ht; subst ht; decide),
    findCatAndTagID_no_match_handle_attaches.2 evNM morNM ⟨Except.ok 0, Except.ok ()⟩
      (fun _ => ⟨0, 1⟩) (Except.ok ⟨some ⟨⟨2, 1024⟩⟩⟩) (fun _ => Except.ok [])
      (fun _ _ => Except.error "404 Not Found") false none (some ⟨0, 0, 0⟩) []
      (by decide) (by decide) (by decide) (by rfl) (by rfl)⟩

end TagVmConfig
